import Mathlib

/-!
Shallow embedding of the wish/bubbletea SSH text-input example
(src/basic/main.go) together with the update step of an earlier revision
of the same example (src/unnamed/part_000), and theorems checking the
specification's claims about them.

The per-session UI logic of src/basic/main.go is pure: the model holds a
single textinput sub-component, and Update pattern-matches on key
messages, quitting on ctrl+c, writing the field value to output.log and
quitting on enter, and forwarding every other message to the textinput's
own update.  The textinput update is third-party library code, so the
embedding of Update is parameterised over it; filesystem writes are made
explicit as an effect list.
-/

/-- Commands handed back to the bubbletea event loop: `quit` is tea.Quit,
`blink` is textinput.Blink, and `other` stands for any further command an
external component may produce. -/
inductive TeaCmd where
  | quit
  | blink
  | other (n : Nat)
deriving DecidableEq

/-- State of the bubbles textinput sub-component, restricted to the fields
this program touches: the current value, the focus flag, the placeholder
string and the display width. -/
structure TextInput where
  value : String
  focused : Bool
  placeholder : String
  width : Int
deriving DecidableEq

/-- Model of the library constructor textinput.New(): a fresh input with
empty value, not focused, empty placeholder and zero width. -/
def TextInput.new : TextInput :=
  ⟨"", false, "", 0⟩

/-- Model of the library method Focus(): sets the focus flag. -/
def TextInput.focus (t : TextInput) : TextInput :=
  { t with focused := true }

/-- The model struct of src/basic/main.go: a single textinput field. -/
structure Model where
  ti : TextInput
deriving DecidableEq

/-- Messages delivered to Update: `key s` is a tea.KeyMsg whose String()
method returns s; `other` is any non-key message. -/
inductive Msg where
  | key (s : String)
  | other (n : Nat)
deriving DecidableEq

/-- Observable filesystem effects performed during an update step:
`writeFile name contents perm` is os.WriteFile(name, contents, perm). -/
inductive Effect where
  | writeFile (name : String) (contents : String) (perm : Nat)
deriving DecidableEq

/-- Result of one update step: the returned model, the command handed back
to the event loop, and the filesystem effects performed on the way. -/
structure UpdateResult where
  model : Model
  cmd : Option TeaCmd
  effects : List Effect
deriving DecidableEq

/-- initialModel() from src/basic/main.go: textinput.New(), then Focus(),
placeholder "Jae C", width 20. -/
def initialModel : Model :=
  let ti := TextInput.new
  let ti := ti.focus
  let ti := { ti with placeholder := "Jae C" }
  let ti := { ti with width := 20 }
  ⟨ti⟩

/-- Init from src/basic/main.go: returns textinput.Blink. -/
def Init (_m : Model) : Option TeaCmd :=
  some TeaCmd.blink

/-- Update from src/basic/main.go.  The textinput sub-component's own
update (library code) is passed in as `tiUpdate`.  The step follows the
Go source: a key message whose string is ctrl+c returns the unchanged
model and tea.Quit with no effect; enter writes the current field value
to output.log with mode 0644 and returns the unchanged model and
tea.Quit; every other message is forwarded to the textinput, whose new
state and command are returned. -/
def Update (tiUpdate : TextInput → Msg → TextInput × Option TeaCmd)
    (m : Model) (msg : Msg) : UpdateResult :=
  match msg with
  | Msg.key s =>
      if s = "ctrl+c" then
        ⟨m, some TeaCmd.quit, []⟩
      else if s = "enter" then
        ⟨m, some TeaCmd.quit, [Effect.writeFile ("output.log") m.ti.value 0o644]⟩
      else
        ⟨⟨(tiUpdate m.ti (Msg.key s)).1⟩, (tiUpdate m.ti (Msg.key s)).2, []⟩
  | Msg.other n =>
      ⟨⟨(tiUpdate m.ti (Msg.other n)).1⟩, (tiUpdate m.ti (Msg.other n)).2, []⟩

/-- Effects of the Update step of the earlier revision
(src/unnamed/part_000): every key message has its string representation
written to output.log with mode 0644, and other messages produce no
effect.  That revision's model struct is empty, its Update never returns
tea.Quit (indeed it reaches the end of the function without returning a
value at all), and there is no text field, so only the effect list of a
step is modelled here. -/
def earlyUpdateEffects : Msg → List Effect
  | Msg.key s => [Effect.writeFile ("output.log") s 0o644]
  | Msg.other _ => []

/-- A concrete stand-in for the bubbles textinput update, used to
instantiate theorems that are quantified over the sub-component: when the
input is focused, a single-character key is appended to the value;
everything else leaves the input unchanged; no command is produced. -/
def tiUpdateDefault (t : TextInput) (m : Msg) : TextInput × Option TeaCmd :=
  match m with
  | Msg.key s =>
      if t.focused && (s.length == 1) then
        ({ t with value := t.value ++ s }, none)
      else
        (t, none)
  | Msg.other _ => (t, none)

/-- A filesystem, as a map from file name to content and permission bits. -/
def FileSystem : Type := String → Option (String × Nat)

/-- Model of os.WriteFile applied to a filesystem: the named file's
previous content, if any, is replaced whole by the new content. -/
def applyEffect (fs : FileSystem) : Effect → FileSystem
  | Effect.writeFile name contents perm =>
      fun n => if n = name then some (contents, perm) else fs n

/-- Applies a list of effects from left to right. -/
def applyEffects (fs : FileSystem) : List Effect → FileSystem
  | [] => fs
  | e :: es => applyEffects (applyEffect fs e) es

/-- Program options returned by teaHandler to the middleware. -/
inductive ProgramOption where
  | withAltScreen
deriving DecidableEq

/-- What teaHandler hands to the bubbletea middleware, together with the
fact that it queried the session's PTY. -/
structure HandlerResult where
  ptyQueried : Bool
  m : Model
  options : List ProgramOption
deriving DecidableEq

/-- teaHandler from src/basic/main.go: calls s.Pty(), then returns the
initial model and the alt-screen program option. -/
def teaHandler : HandlerResult :=
  ⟨true, initialModel, [ProgramOption.withAltScreen]⟩

/-- The host constant of src/basic/main.go. -/
def host : String := "0.0.0.0"

/-- The port constant of src/basic/main.go. -/
def port : String := "3000"

/-- Model of net.JoinHostPort: the host is bracketed when it contains a
colon (IPv6), otherwise host, colon, port. -/
def joinHostPort (h p : String) : String :=
  if h.toList.contains ':' then ("[" ++ h ++ "]:" ++ p) else (h ++ ":" ++ p)

/-- The middleware stack installed in main. -/
inductive Middleware where
  | bubbleteaHandler
  | activeterm
  | logging
deriving DecidableEq

/-- Options passed to wish.NewServer. -/
inductive ServerOption where
  | withAddress (addr : String)
  | withHostKeyPath (path : String)
  | withMiddleware (ms : List Middleware)
deriving DecidableEq

/-- The option list main passes to wish.NewServer.  The function receives
the process's command-line arguments and environment; main never reads
either, so the embedding ignores them and the result is one fixed list. -/
def serverOptions (_args : List String) (_env : String → Option String) :
    List ServerOption :=
  [ServerOption.withAddress (joinHostPort host port),
   ServerOption.withHostKeyPath (".ssh/id_ed25519"),
   ServerOption.withMiddleware
     [Middleware.bubbleteaHandler, Middleware.activeterm, Middleware.logging]]

/-- Errors surfaced by the ssh server; serverClosed is ssh.ErrServerClosed
and `other` is any other error, carrying its message. -/
inductive SshError where
  | serverClosed
  | other (s : String)
deriving DecidableEq

/-- Model of errors.Is(err, ssh.ErrServerClosed). -/
def isServerClosed : SshError → Bool
  | SshError.serverClosed => true
  | SshError.other _ => false

/-- Log entries emitted by main. -/
inductive LogEntry where
  | info (msg : String)
  | logError (msg : String)
deriving DecidableEq

/-- Log entries produced by the serve goroutine in main for a given result
of ListenAndServe: an error is logged exactly when the result is a
non-nil error other than ssh.ErrServerClosed. -/
def serveResultLogs : Option SshError → List LogEntry
  | none => []
  | some e =>
      if isServerClosed e then [] else [LogEntry.logError ("Could not start server")]

/-- Whether the serve goroutine pushes onto the done channel, letting the
process proceed to exit: exactly when a startup error was logged. -/
def serveSignalsDone : Option SshError → Bool
  | none => false
  | some e => !isServerClosed e

/-- The timeout, in nanoseconds, of the context main passes to
s.Shutdown: 30 * time.Second. -/
def shutdownTimeoutNanos : Nat := 30 * 1000000000

/-- Log entries produced by the shutdown call at the end of main for a
given result of s.Shutdown: an error is logged exactly when the result is
a non-nil error other than ssh.ErrServerClosed. -/
def shutdownLogs : Option SshError → List LogEntry
  | none => []
  | some e =>
      if isServerClosed e then [] else [LogEntry.logError ("Could not stop server")]

/-- The tail of main after the done channel fires: logs the stop notice,
calls Shutdown under the 30-second context, logs a shutdown failure if
any, and returns, after which the process exits. -/
def mainAfterSignal (shutdownErr : Option SshError) : List LogEntry :=
  LogEntry.info ("Stopping SSH server") :: shutdownLogs shutdownErr

/-- Claim C1: for every model state, on the Enter key message the update
step writes exactly the current text-field value to output.log — one
write effect and nothing else — and returns the quit command, ending the
session. -/
theorem update_enter_writes_value_and_quits
    (tiUpdate : TextInput → Msg → TextInput × Option TeaCmd) (m : Model) :
    Update tiUpdate m (Msg.key ("enter")) =
      ⟨m, some TeaCmd.quit, [Effect.writeFile ("output.log") m.ti.value 0o644]⟩ := by
  rfl

/-- Claim C3: for every model state, on the Ctrl+C key message the update
step returns the quit command and performs no write effect at all. -/
theorem update_ctrl_c_quits_without_writing
    (tiUpdate : TextInput → Msg → TextInput × Option TeaCmd) (m : Model) :
    Update tiUpdate m (Msg.key ("ctrl+c")) = ⟨m, some TeaCmd.quit, []⟩ := by
  rfl

/-- Claim C2 counterexample: on Ctrl+C the session terminates (the quit
command is returned) but no write effect is performed, so it is false
that both terminating keys persist the entered value before ending. -/
theorem ctrl_c_terminates_without_persisting :
    (Update tiUpdateDefault initialModel (Msg.key ("ctrl+c"))).effects = [] ∧
    (Update tiUpdateDefault initialModel (Msg.key ("ctrl+c"))).cmd =
      some TeaCmd.quit := by
  exact ⟨rfl, rfl⟩

/-- Claim C2 amended: pressing Enter or Ctrl+C terminates the session (the
quit command is returned); Enter persists the current value to output.log
before ending, while Ctrl+C terminates without writing anything. -/
theorem terminating_keys_quit_enter_persists
    (tiUpdate : TextInput → Msg → TextInput × Option TeaCmd) (m : Model) :
    Update tiUpdate m (Msg.key ("enter")) =
      ⟨m, some TeaCmd.quit, [Effect.writeFile ("output.log") m.ti.value 0o644]⟩ ∧
    Update tiUpdate m (Msg.key ("ctrl+c")) = ⟨m, some TeaCmd.quit, []⟩ := by
  exact ⟨rfl, rfl⟩

/-- Claim C4: a key message other than the two reserved keys is forwarded
to the textinput sub-component, whose updated state and command are
returned unchanged with no effect — in particular the step itself signals
no completion beyond what the sub-component returns — while for exactly
the two reserved keys the quit command is returned. -/
theorem update_forwards_unreserved_keys
    (tiUpdate : TextInput → Msg → TextInput × Option TeaCmd) (m : Model)
    (s : String) (h1 : s ≠ "ctrl+c") (h2 : s ≠ "enter") :
    Update tiUpdate m (Msg.key s) =
      ⟨⟨(tiUpdate m.ti (Msg.key s)).1⟩, (tiUpdate m.ti (Msg.key s)).2, []⟩ ∧
    ((tiUpdate m.ti (Msg.key s)).2 ≠ some TeaCmd.quit →
      (Update tiUpdate m (Msg.key s)).cmd ≠ some TeaCmd.quit) ∧
    (Update tiUpdate m (Msg.key ("enter"))).cmd = some TeaCmd.quit ∧
    (Update tiUpdate m (Msg.key ("ctrl+c"))).cmd = some TeaCmd.quit := by
  refine ⟨?_, ?_, rfl, rfl⟩
  · simp [Update, h1, h2]
  · intro hq
    simp [Update, h1, h2]
    exact hq

/-- Claim C4 witness: the plain key a is forwarded to the sub-component
and does not quit, while the two reserved keys quit. -/
theorem update_forwards_unreserved_keys_witness :
    Update tiUpdateDefault initialModel (Msg.key ("a")) =
      ⟨⟨(tiUpdateDefault initialModel.ti (Msg.key ("a"))).1⟩,
       (tiUpdateDefault initialModel.ti (Msg.key ("a"))).2, []⟩ ∧
    ((tiUpdateDefault initialModel.ti (Msg.key ("a"))).2 ≠ some TeaCmd.quit →
      (Update tiUpdateDefault initialModel (Msg.key ("a"))).cmd ≠ some TeaCmd.quit) ∧
    (Update tiUpdateDefault initialModel (Msg.key ("enter"))).cmd = some TeaCmd.quit ∧
    (Update tiUpdateDefault initialModel (Msg.key ("ctrl+c"))).cmd = some TeaCmd.quit :=
  update_forwards_unreserved_keys tiUpdateDefault initialModel ("a")
    (by decide) (by decide)

/-- Claim C5: on Enter or Ctrl+C the returned model equals the input
model — the reserved keystroke is not inserted into the text field — and
the value written on Enter is exactly the field's value as it stood
before that keystroke. -/
theorem reserved_keys_leave_model_unchanged
    (tiUpdate : TextInput → Msg → TextInput × Option TeaCmd) (m : Model) :
    (Update tiUpdate m (Msg.key ("enter"))).model = m ∧
    (Update tiUpdate m (Msg.key ("ctrl+c"))).model = m ∧
    (Update tiUpdate m (Msg.key ("enter"))).effects =
      [Effect.writeFile ("output.log") m.ti.value 0o644] := by
  exact ⟨rfl, rfl, rfl⟩

/-- Claim C6: the shutdown call runs under a context whose timeout is 30
seconds; after the signal the process logs the stop notice and proceeds
to exit whatever Shutdown returns, logging an error only for a shutdown
failure other than the expected closed-server error; likewise a startup
error other than the closed-server error is only logged. -/
theorem shutdown_bounded_and_errors_only_logged :
    shutdownTimeoutNanos = 30 * 1000000000 ∧
    mainAfterSignal none = [LogEntry.info ("Stopping SSH server")] ∧
    mainAfterSignal (some SshError.serverClosed) =
      [LogEntry.info ("Stopping SSH server")] ∧
    (∀ s : String, mainAfterSignal (some (SshError.other s)) =
      [LogEntry.info ("Stopping SSH server"),
       LogEntry.logError ("Could not stop server")]) ∧
    serveResultLogs (some SshError.serverClosed) = [] ∧
    (∀ s : String, serveResultLogs (some (SshError.other s)) =
      [LogEntry.logError ("Could not start server")]) := by
  exact ⟨rfl, rfl, rfl, fun _ => rfl, rfl, fun _ => rfl⟩

/-- Claim C7: every write effect an update step performs targets
output.log with permission bits 0644 and the current field value as
content, and applying a write to any filesystem replaces the file's
previous content whole (os.WriteFile truncates). -/
theorem writes_target_output_log_0644
    (tiUpdate : TextInput → Msg → TextInput × Option TeaCmd) (m : Model)
    (msg : Msg) (fs : FileSystem) (c : String) (p : Nat) :
    ((Update tiUpdate m msg).effects = [] ∨
      (Update tiUpdate m msg).effects =
        [Effect.writeFile ("output.log") m.ti.value 0o644]) ∧
    applyEffect fs (Effect.writeFile ("output.log") c p) ("output.log") =
      some (c, p) := by
  constructor
  · cases msg with
    | key s =>
        by_cases h1 : s = "ctrl+c"
        · exact Or.inl (by simp [Update, h1])
        · by_cases h2 : s = "enter"
          · exact Or.inr (by simp [Update, h1, h2])
          · exact Or.inl (by simp [Update, h1, h2])
    | other n => exact Or.inl rfl
  · rfl

/-- Claim C8: for every command line and environment, the server is
configured with the fixed address 0.0.0.0:3000 and the fixed host key
path .ssh/id_ed25519. -/
theorem server_config_fixed (args : List String) (env : String → Option String) :
    serverOptions args env =
      [ServerOption.withAddress ("0.0.0.0:3000"),
       ServerOption.withHostKeyPath (".ssh/id_ed25519"),
       ServerOption.withMiddleware
         [Middleware.bubbleteaHandler, Middleware.activeterm, Middleware.logging]] ∧
    joinHostPort host port = "0.0.0.0:3000" := by
  constructor
  · simp [serverOptions, joinHostPort, host, port]
  · simp [joinHostPort, host, port]

/-- Claim C9: the session entry point queries the PTY and produces the
initial model — a single text field holding the empty value, focused,
with placeholder Jae C and display width 20 — together with the
alt-screen program option. -/
theorem teaHandler_initial_state :
    teaHandler.m = initialModel ∧
    teaHandler.options = [ProgramOption.withAltScreen] ∧
    initialModel.ti.value = "" ∧
    initialModel.ti.focused = true ∧
    initialModel.ti.placeholder = "Jae C" ∧
    initialModel.ti.width = 20 := by
  exact ⟨rfl, rfl, rfl, rfl, rfl, rfl⟩

/-- Claim C10 counterexample: on the plain key a — a key message involving
none of the progressively added features — the earlier revision writes
the key's string representation to output.log while the final revision
performs no write, so the two update steps do not agree there. -/
theorem early_final_disagree_on_plain_key :
    earlyUpdateEffects (Msg.key ("a")) =
      [Effect.writeFile ("output.log") ("a") 0o644] ∧
    (Update tiUpdateDefault initialModel (Msg.key ("a"))).effects = [] ∧
    earlyUpdateEffects (Msg.key ("a")) ≠
      (Update tiUpdateDefault initialModel (Msg.key ("a"))).effects := by
  refine ⟨rfl, rfl, ?_⟩
  decide

/-- Claim C10 amended: the two revisions' update steps agree in performing
no write only on non-key messages; on every key message the earlier
revision writes the key's string representation to output.log, while the
final revision writes nothing unless the key is Enter, in which case it
writes the field's current value instead. -/
theorem early_final_write_behavior
    (tiUpdate : TextInput → Msg → TextInput × Option TeaCmd) (m : Model)
    (s : String) (n : Nat) :
    earlyUpdateEffects (Msg.other n) = [] ∧
    (Update tiUpdate m (Msg.other n)).effects = [] ∧
    earlyUpdateEffects (Msg.key s) = [Effect.writeFile ("output.log") s 0o644] ∧
    (s ≠ "ctrl+c" → s ≠ "enter" → (Update tiUpdate m (Msg.key s)).effects = []) ∧
    (Update tiUpdate m (Msg.key ("enter"))).effects =
      [Effect.writeFile ("output.log") m.ti.value 0o644] ∧
    (Update tiUpdate m (Msg.key ("ctrl+c"))).effects = [] := by
  refine ⟨rfl, rfl, rfl, ?_, rfl, rfl⟩
  intro h1 h2
  simp [Update, h1, h2]

/-- Claim C10 amended witness: instantiated at the plain key a and a
non-key message. -/
theorem early_final_write_behavior_witness :
    earlyUpdateEffects (Msg.other 0) = [] ∧
    (Update tiUpdateDefault initialModel (Msg.other 0)).effects = [] ∧
    earlyUpdateEffects (Msg.key ("a")) =
      [Effect.writeFile ("output.log") ("a") 0o644] ∧
    (Update tiUpdateDefault initialModel (Msg.key ("a"))).effects = [] ∧
    (Update tiUpdateDefault initialModel (Msg.key ("enter"))).effects =
      [Effect.writeFile ("output.log") initialModel.ti.value 0o644] ∧
    (Update tiUpdateDefault initialModel (Msg.key ("ctrl+c"))).effects = [] := by
  obtain ⟨a, b, c, d, e, f⟩ :=
    early_final_write_behavior tiUpdateDefault initialModel ("a") 0
  exact ⟨a, b, c, d (by decide) (by decide), e, f⟩
